import Mathlib

/-!
Verification of the BTW ASR worker (`src/ml/btw_ml.py`), a line-delimited
JSON stdin/stdout worker that encodes PCM16 audio to WAV and forwards it to
a remote transcription service.

Shallow embedding notes:
* JSON values decoded by `json.loads` are modelled by `JValue` (floats are
  not needed by any claim and are omitted; a comment marks each place where
  this matters).
* Python exceptions are modelled by `PyErr`; a function that can raise
  returns `Except PyErr _`.
* NumPy's `astype(np.int16)` / `np.array(_, dtype=np.int16)` conversion of
  integers is modelled as the two's-complement cast (reduction modulo 2^16
  into [-32768, 32767]), the documented unsafe-cast semantics of `astype`.
* The Groq network call is opaque; it is modelled by a `ServiceOutcome`
  stub (it either returns an object whose `text` attribute is an optional
  string, or raises an exception with a class name and message).
* stderr diagnostics are collected as lists of strings; `get_client`'s
  environment handling is out of scope (the spec excludes credential
  loading) and irrelevant to every claim.
-/

namespace BtwMl

/-- JSON values as returned by `json.loads` (floats omitted: no claim
depends on a non-integer number). -/
inductive JValue where
  | jnull
  | jbool (b : Bool)
  | jint (n : Int)
  | jstr (s : String)
  | jarr (xs : List JValue)
  | jobj (kvs : List (String × JValue))

/-- Python exceptions relevant to the worker. -/
inductive PyErr where
  | valueError (msg : String)
  | typeError (msg : String)
  | attributeError (msg : String)
deriving Repr, DecidableEq

def PyErr.className : PyErr → String
  | .valueError _ => "ValueError"
  | .typeError _ => "TypeError"
  | .attributeError _ => "AttributeError"

def PyErr.message : PyErr → String
  | .valueError m => m
  | .typeError m => m
  | .attributeError m => m

/-- Python's type name of a JSON-decoded value (used in error messages). -/
def JValue.pyTypeName : JValue → String
  | .jnull => "NoneType"
  | .jbool _ => "bool"
  | .jint _ => "int"
  | .jstr _ => "str"
  | .jarr _ => "list"
  | .jobj _ => "dict"

/-- A decoded request object: Python dict with string keys (JSON object
keys are unique, `List.lookup` returns the stored value). -/
abbrev Dict := List (String × JValue)

/-- `d.get(k)` on a dict: `None` when the key is absent. -/
def dictGet (d : Dict) (k : String) : Option JValue := d.lookup k

/-- `d.get(k, default)` on a dict. -/
def dictGetD (d : Dict) (k : String) (dflt : JValue) : JValue :=
  (d.lookup k).getD dflt

/-- Python `v == s` for a string literal `s`: true iff `v` is that exact
string (values of other types compare unequal to a `str`). -/
def JValue.isStrEq (v : JValue) (s : String) : Bool :=
  match v with
  | .jstr t => t = s
  | _ => false

def JValue.isArr : JValue → Bool
  | .jarr _ => true
  | _ => false

def JValue.isObj : JValue → Bool
  | .jobj _ => true
  | _ => false

/-- Quote character CPython `repr` picks for a string: single quotes,
unless the string contains a single quote and no double quote. -/
def pyQuote (s : String) : Char :=
  if s.data.contains '\'' && !(s.data.contains '"') then '"' else '\''

/-- One character of CPython string `repr` under quote `q`: escape the
backslash, the quote character, newline, carriage return and tab, render
other control characters (and DEL) as `\xhh`, keep everything else
verbatim. -/
def pyEscChar (q : Char) (c : Char) : String :=
  if c = '\\' then "\\\\"
  else if c = q then "\\" ++ String.singleton q
  else if c = '\n' then "\\n"
  else if c = '\x0d' then "\\r"
  else if c = '\t' then "\\t"
  else if c.toNat < 32 ∨ c.toNat = 127 then
    "\\x" ++ String.singleton (Nat.digitChar (c.toNat / 16)) ++
      String.singleton (Nat.digitChar (c.toNat % 16))
  else String.singleton c

/-- CPython `repr` of a string. -/
def pyStrRepr (s : String) : String :=
  let q := pyQuote s
  String.singleton q ++ String.join (s.data.map (pyEscChar q)) ++ String.singleton q

mutual

/-- Python `repr(v)` of a decoded JSON value: `None`/`True`/`False`,
numbers plainly, strings quoted, lists as `[e1, e2]` and dicts as
`\x7b'k': v\x7d` with their real contents. -/
def pyRepr : JValue → String
  | .jnull => "None"
  | .jbool b => if b then "True" else "False"
  | .jint n => toString n
  | .jstr s => pyStrRepr s
  | .jarr xs => "[" ++ pyReprList xs ++ "]"
  | .jobj kvs => "\x7b" ++ pyReprObj kvs ++ "\x7d"

/-- Comma-separated `repr`s of list elements. -/
def pyReprList : List JValue → String
  | [] => ""
  | [v] => pyRepr v
  | v :: rest => pyRepr v ++ ", " ++ pyReprList rest

/-- Comma-separated `'key': repr(value)` items of a dict. -/
def pyReprObj : List (String × JValue) → String
  | [] => ""
  | [(k, v)] => pyStrRepr k ++ ": " ++ pyRepr v
  | (k, v) :: rest => pyStrRepr k ++ ": " ++ pyRepr v ++ ", " ++ pyReprObj rest

end

/-- Python `str(v)` / f-string rendering of a decoded JSON value: scalars
render plainly (strings without quotes), containers render via `repr` of
their real contents, exactly as `f"...\x7btyp\x7d"` does. -/
def pyStr : JValue → String
  | .jnull => "None"
  | .jbool b => if b then "True" else "False"
  | .jint n => toString n
  | .jstr s => s
  | .jarr xs => pyRepr (.jarr xs)
  | .jobj kvs => pyRepr (.jobj kvs)

def isSpaceChar (c : Char) : Bool :=
  c = ' ' || c = '\t' || c = '\n' || c = '\x0d' || c = '\x0b' || c = '\x0c'

/-- Accumulate decimal digits; fails on a non-digit. -/
def parseDigits : List Char → Nat → Option Nat
  | [], acc => some acc
  | c :: cs, acc =>
    if 48 ≤ c.toNat ∧ c.toNat ≤ 57 then parseDigits cs (acc * 10 + (c.toNat - 48))
    else none

/-- Parse an optionally signed decimal integer with surrounding
whitespace, as Python `int(str)` does (Python's extra forms — underscores,
unicode digits — are not needed by any claim). -/
def parseIntChars (cs : List Char) : Option Int :=
  let body := ((cs.dropWhile isSpaceChar).reverse.dropWhile isSpaceChar).reverse
  match body with
  | '-' :: ds => if ds.isEmpty then none else (parseDigits ds 0).map (fun n => -(n : Int))
  | '+' :: ds => if ds.isEmpty then none else (parseDigits ds 0).map (fun n => (n : Int))
  | ds => if ds.isEmpty then none else (parseDigits ds 0).map (fun n => (n : Int))

/-- Python `int(s)` on a string. -/
def pyIntOfStr (s : String) : Except PyErr Int :=
  match parseIntChars s.data with
  | some n => .ok n
  | none => .error (.valueError ("invalid literal for int() with base 10: " ++ s))

/-- Python `int(x)` on a JSON-decoded value. -/
def pyInt : JValue → Except PyErr Int
  | .jint n => .ok n
  | .jbool b => .ok (if b then 1 else 0)
  | .jstr s => pyIntOfStr s
  | v => .error (.typeError ("int() argument must be a string, a bytes-like object or a real number, not " ++ v.pyTypeName))

/-! ## Audio encoder (`pcm16_to_wav_bytes`) -/

/-- Reinterpret `u` (a 16-bit unsigned value) as a signed 16-bit integer. -/
def toSigned16 (u : Nat) : Int :=
  if u % 65536 ≥ 32768 then (u % 65536 : Int) - 65536 else (u % 65536 : Int)

/-- NumPy int → int16 cast: two's-complement reduction modulo 2^16 into
[-32768, 32767] (the `astype` unsafe-cast semantics). -/
def wrap16 (n : Int) : Int := toSigned16 (n % 65536).toNat

/-- The two little-endian bytes of a sample after the int16 cast, as
produced by `ndarray.tobytes()`. -/
def int16LEBytes (n : Int) : List Nat :=
  [(n % 65536).toNat % 256, (n % 65536).toNat / 256]

/-- Raw PCM frame bytes of a sample list (`pcm.tobytes()`). -/
def framesOf : List Int → List Nat
  | [] => []
  | n :: rest => int16LEBytes n ++ framesOf rest

/-- Little-endian 16-bit field of a WAV header. -/
def u16le (n : Nat) : List Nat := [n % 256, n / 256 % 256]

/-- Little-endian 32-bit field of a WAV header. -/
def u32le (n : Nat) : List Nat :=
  [n % 256, n / 256 % 256, n / 65536 % 256, n / 16777216 % 256]

/-- The 44-byte canonical WAV header the Python `wave` module writes for
mono 16-bit PCM: RIFF chunk, fmt chunk (PCM, 1 channel, 16 bits), data
chunk header. -/
def wavHeader (sampleRate : Nat) (dataSize : Nat) : List Nat :=
  [0x52, 0x49, 0x46, 0x46] ++ u32le (36 + dataSize) ++
  [0x57, 0x41, 0x56, 0x45] ++
  [0x66, 0x6d, 0x74, 0x20] ++ u32le 16 ++ u16le 1 ++ u16le 1 ++
  u32le sampleRate ++ u32le (sampleRate * 2) ++ u16le 2 ++ u16le 16 ++
  [0x64, 0x61, 0x74, 0x61] ++ u32le dataSize

/-- `pcm16_to_wav_bytes`: cast samples to int16 (`astype`), write a mono
16-bit WAV container in memory, return its bytes. -/
def pcm16_to_wav_bytes (samples : List Int) (sample_rate : Nat) : List Nat :=
  let pcm := samples.map wrap16
  let frames := framesOf pcm
  wavHeader sample_rate frames.length ++ frames

/-! ## A standard WAV reader (for the round-trip property) -/

/-- Little-endian value of a byte list. -/
def leVal (bs : List Nat) : Nat := bs.foldr (fun b acc => b + 256 * acc) 0

/-- Split raw little-endian PCM16 data bytes back into signed samples. -/
def decodeSamples : List Nat → List Int
  | b0 :: b1 :: rest => toSigned16 (b0 % 256 + 256 * (b1 % 256)) :: decodeSamples rest
  | _ => []

/-- Consume an expected literal byte sequence from the front of the
input, returning the remainder. -/
def expectBytes : List Nat → List Nat → Option (List Nat)
  | [], bs => some bs
  | p :: ps, b :: bs => if b = p then expectBytes ps bs else none
  | _ :: _, [] => none

/-- Consume four bytes and return their little-endian value with the
remainder. -/
def readLE4 : List Nat → Option (Nat × List Nat)
  | a :: b :: c :: d :: rest => some (a + 256 * (b + 256 * (c + 256 * d)), rest)
  | _ => none

/-- A standard WAV reader for the canonical 44-byte-header layout: checks
the RIFF/WAVE/fmt/data structure, PCM format, mono, 16 bits, consistent
sizes, and returns the sample rate and the decoded samples. -/
def wavDecode (bs0 : List Nat) : Option (Nat × List Int) := do
  let bs1 ← expectBytes [0x52, 0x49, 0x46, 0x46] bs0
  let (chunkSize, bs2) ← readLE4 bs1
  let bs3 ← expectBytes [0x57, 0x41, 0x56, 0x45] bs2
  let bs4 ← expectBytes [0x66, 0x6d, 0x74, 0x20] bs3
  let bs5 ← expectBytes [16, 0, 0, 0] bs4
  let bs6 ← expectBytes [1, 0, 1, 0] bs5
  let (rate, bs7) ← readLE4 bs6
  let (_byteRate, bs8) ← readLE4 bs7
  let bs9 ← expectBytes [2, 0, 16, 0] bs8
  let bs10 ← expectBytes [0x64, 0x61, 0x74, 0x61] bs9
  let (dataSize, data) ← readLE4 bs10
  if data.length = dataSize ∧ chunkSize = 36 + dataSize ∧ dataSize % 2 = 0 then
    some (rate, decodeSamples data)
  else
    none

/-- Modelled from the spec's words (claim C2's reading of "clamping each
element into the signed 16-bit range"): saturation into [-32768, 32767].
This is the behaviour the claim asserts, stated for comparison with the
code's `wrap16`; the code itself casts (wraps), it never clamps. -/
def specClamp16 (n : Int) : Int := max (-32768) (min 32767 n)

/-! ## Transcription service stub and `handle_asr` -/

/-- Outcome of `client.audio.transcriptions.create(...)`: either a result
object whose `text` attribute is read with `getattr(result, 'text', None)`
(hence `Option String`), or a raised exception with a class name and a
message. The real call is an opaque network dependency; claims quantify
over this stub. -/
inductive ServiceOutcome where
  | ok (text : Option String)
  | raise (errClass errMsg : String)

/-- The worker's response dict: `type` is always `"asr_result"`,
`confidence` is always `None` in the source, so it is carried as an
always-`none` `Option String` for faithful serialization. -/
structure Response where
  type : String
  text : String
  confidence : Option String
  error : Option String
deriving Repr, DecidableEq

/-- What one call of `handle_asr` did: its return value or raised
exception, whether the service call was reached, which WAV bytes were
uploaded, and the stderr lines it printed. -/
structure HandleResult where
  result : Except PyErr Response
  serviceCalled : Bool
  wavSent : Option (List Nat)
  diags : List String
deriving Repr

/-- Convert one element of the `samples` list as
`np.array(samples, dtype=np.int16)` does: integers and booleans cast
(two's-complement), numeric strings parse, anything else raises. -/
def npElemToInt : JValue → Except PyErr Int
  | .jint n => .ok n
  | .jbool b => .ok (if b then 1 else 0)
  | .jstr s => pyIntOfStr s
  | v => .error (.typeError ("int() argument must be a string, a bytes-like object or a real number, not " ++ v.pyTypeName))

/-- Convert the whole `samples` list for `np.array(_, dtype=np.int16)`. -/
def npToIntList : List JValue → Except PyErr (List Int)
  | [] => .ok []
  | v :: rest => do
    let n ← npElemToInt v
    let ns ← npToIntList rest
    .ok (n :: ns)

/-- The validation and conversion prefix of `handle_asr` (source lines
44-55, in source order): check `audio_format == "pcm_s16le"`, coerce
`int(req.get("sample_rate", 0))` and check it equals 16000, check
`isinstance(samples, list)`, convert the elements for
`np.array(_, dtype=np.int16)`. Returns the coerced rate and the samples,
or the first raised exception. -/
def asrValidate (req : Dict) : Except PyErr (Int × List Int) :=
  if ¬ (dictGetD req "audio_format" .jnull).isStrEq "pcm_s16le" then
    .error (.valueError "Unsupported audio_format; expected pcm_s16le")
  else
    match pyInt (dictGetD req "sample_rate" (.jint 0)) with
    | .error e => .error e
    | .ok sr =>
      if sr ≠ 16000 then
        .error (.valueError "Unsupported sample_rate; expected 16000")
      else
        match dictGetD req "samples" .jnull with
        | .jarr xs => (npToIntList xs).map (fun ns => (sr, ns))
        | _ => .error (.valueError "samples must be a list of int16")

/-- `handle_asr(req)`: validate and convert, encode to WAV, call the
service; a service exception is caught, logged to stderr, and turned into
a `groq_asr_failed` response. Validation and conversion exceptions
propagate to the caller (`Except.error`); on the success path the text is
`getattr(result, 'text', None) or ""`. -/
def handle_asr (svc : ServiceOutcome) (req : Dict) : HandleResult :=
  match asrValidate req with
  | .error e => ⟨.error e, false, none, []⟩
  | .ok (sr, ns) =>
    let wav := pcm16_to_wav_bytes ns sr.toNat
    match svc with
    | .raise cls msg =>
      ⟨.ok ⟨"asr_result", "", none,
            some ("groq_asr_failed: " ++ cls ++ ": " ++ msg)⟩,
       true, some wav,
       ["ASR error: " ++ cls ++ ": " ++ msg]⟩
    | .ok t =>
      ⟨.ok ⟨"asr_result", t.getD "", none, none⟩, true, some wav, []⟩

/-! ## Response serialization (`json.dumps(resp, ensure_ascii=False)`) -/

/-- JSON string escaping as `json.dumps` with `ensure_ascii=False` does
it: only `"` and backslash and control characters below 0x20 are escaped;
all other characters (non-ASCII included) pass through verbatim. -/
def escChar (c : Char) : String :=
  if c = '"' then "\\\""
  else if c = '\\' then "\\\\"
  else if c = '\n' then "\\n"
  else if c = '\t' then "\\t"
  else if c = '\r' then "\\r"
  else if c.toNat = 8 then "\\b"
  else if c.toNat = 12 then "\\f"
  else if c.toNat < 32 then
    "\\u00" ++ String.singleton (Nat.digitChar (c.toNat / 16)) ++
    String.singleton (Nat.digitChar (c.toNat % 16))
  else String.singleton c

/-- Concatenate the escapes of a character list. -/
def escList : List Char → String
  | [] => ""
  | c :: cs => escChar c ++ escList cs

def jsonEscape (s : String) : String := escList s.data

def jsonStr (s : String) : String := "\"" ++ jsonEscape s ++ "\""

def jsonOptStr : Option String → String
  | none => "null"
  | some s => jsonStr s

/-- `json.dumps(resp, ensure_ascii=False)` for a response dict: Python's
default separators are comma-space and colon-space, and insertion order of
the keys (`type`, `text`, `confidence`, `error`) is preserved. -/
def serializeResponse (r : Response) : String :=
  "\x7b\"type\": " ++ jsonStr r.type ++
  ", \"text\": " ++ jsonStr r.text ++
  ", \"confidence\": " ++ jsonOptStr r.confidence ++
  ", \"error\": " ++ jsonOptStr r.error ++ "\x7d"

/-- An asr request whose `sample_rate` is the STRING "16000", not the
integer 16000: probes the `int()` coercion in the validation. -/
def strRateReq : Dict :=
  [("type", .jstr "asr"), ("audio_format", .jstr "pcm_s16le"),
   ("sample_rate", .jstr "16000"), ("samples", .jarr [.jint 0])]

/-- The spec's end-to-end example request: three zero samples. -/
def exampleReq : Dict :=
  [("type", .jstr "asr"), ("audio_format", .jstr "pcm_s16le"),
   ("sample_rate", .jint 16000), ("samples", .jarr [.jint 0, .jint 0, .jint 0])]

/-! ## The request loop (`main`) and process exit (`__main__` guard) -/

/-- One stdin line after `line.strip()`, abstracted over `json.loads`:
either empty, or raising `json.JSONDecodeError` with some message, or a
decoded JSON value. -/
inductive InLine where
  | blank
  | badJson (msg : String)
  | json (v : JValue)

/-- What one loop iteration of `main` does with a line: skip it, drop it
with a diagnostic (malformed JSON), emit a response (with the stderr lines
printed while producing it), or let an exception escape the loop. -/
inductive LineOutcome where
  | skip
  | dropped (diag : String)
  | reply (r : Response) (diags : List String)
  | fatal (e : PyErr)
deriving Repr, DecidableEq

/-- One iteration of `main`'s loop body on a stripped line. The dispatch
`req.get("type")` happens OUTSIDE the try block, so on a non-dict JSON
value the `AttributeError` escapes the loop (`.fatal`); only the
`handle_asr(req)` call itself is guarded by `try`. -/
def processLine (svc : ServiceOutcome) (l : InLine) : LineOutcome :=
  match l with
  | .blank => .skip
  | .badJson msg => .dropped ("Invalid JSON: " ++ msg)
  | .json v =>
    match v with
    | .jobj req =>
      let typ := dictGetD req "type" .jnull
      if typ.isStrEq "asr" then
        match (handle_asr svc req).result with
        | .ok r => .reply r (handle_asr svc req).diags
        | .error e =>
          .reply ⟨"asr_result", "", none,
                  some ("asr_handler_error: " ++ e.className ++ ": " ++ e.message)⟩
                 ((handle_asr svc req).diags ++
                  ["ASR handler error: " ++ e.className ++ ": " ++ e.message])
      else
        .reply ⟨"asr_result", "", none,
                some ("unknown_request_type: " ++ pyStr typ)⟩
               ["Unknown request type: " ++ pyStr typ]
    | other => .fatal (.attributeError
        ("'" ++ other.pyTypeName ++ "' object has no attribute 'get'"))

/-- The stdout lines an outcome writes (each response is serialized and
written with exactly one trailing newline, then flushed). -/
def lineOutputs (o : LineOutcome) : List String :=
  match o with
  | .reply r _ => [serializeResponse r ++ "\n"]
  | _ => []

/-- The stderr lines an outcome prints. -/
def lineDiags (o : LineOutcome) : List String :=
  match o with
  | .dropped d => [d]
  | .reply _ ds => ds
  | _ => []

structure LoopResult where
  outs : List String
  diags : List String
  fatalErr : Option PyErr
deriving Repr, DecidableEq

/-- `main`'s loop over the whole input: processes lines in order and stops
early only when an exception escapes an iteration. -/
def runLoop (svc : ServiceOutcome) : List InLine → LoopResult
  | [] => ⟨[], [], none⟩
  | l :: rest =>
    match processLine svc l with
    | .fatal e => ⟨[], [], some e⟩
    | o =>
      let r := runLoop svc rest
      ⟨lineOutputs o ++ r.outs, lineDiags o ++ r.diags, r.fatalErr⟩

/-- How the input stream ends: end-of-file, or a keyboard interrupt
delivered at a line boundary (the coarse model of an asynchronous
signal). -/
inductive EndKind where
  | eof
  | interrupt

structure RunResult where
  outLines : List String
  diagLines : List String
  exitCode : Nat
deriving Repr, DecidableEq

/-- The whole process (`__main__` guard around `main()`): a clean end of
the loop — end-of-input or `KeyboardInterrupt` — exits 0; an exception
escaping the loop is logged as `Worker fatal error: <message>` and the
process exits 1 via `sys.exit(1)`. -/
def worker (svc : ServiceOutcome) (input : List InLine) (endk : EndKind) : RunResult :=
  match endk, runLoop svc input with
  | _, ⟨outs, ds, none⟩ => ⟨outs, ds, 0⟩
  | _, ⟨outs, ds, some e⟩ => ⟨outs, ds ++ ["Worker fatal error: " ++ e.message], 1⟩

/-! ## Helper lemmas: WAV encoding round-trip -/

theorem framesOf_length (S : List Int) : (framesOf S).length = 2 * S.length := by
  induction S with
  | nil => rfl
  | cons n rest ih =>
    simp [framesOf, int16LEBytes, ih]
    omega

theorem decodeSamples_framesOf (S : List Int) :
    decodeSamples (framesOf S) = S.map wrap16 := by
  induction S with
  | nil => rfl
  | cons n rest ih =>
    have hu : (n % 65536).toNat < 65536 := by omega
    simp only [framesOf, int16LEBytes, List.cons_append, List.nil_append,
      decodeSamples, List.map_cons, ih]
    congr 1
    unfold wrap16
    congr 1
    omega

/-- The four little-endian header bytes of `n` decode back to `n` when it
fits in 32 bits. -/
theorem leVal_u32le (n : Nat) (h : n < 4294967296) : leVal (u32le n) = n := by
  simp [u32le, leVal]
  omega

set_option maxHeartbeats 2000000 in
/-- The standard reader accepts the header `pcm16_to_wav_bytes` writes and
recovers the rate and the raw data bytes, for any data fitting the 32-bit
size fields. -/
theorem wavDecode_header (rate d : Nat) (data : List Nat)
    (hr : rate < 4294967296) (hd : 36 + d < 4294967296)
    (hlen : data.length = d) (h2 : d % 2 = 0) :
    wavDecode (wavHeader rate d ++ data) = some (rate, decodeSamples data) := by
  simp only [wavHeader, u16le, u32le, List.cons_append, List.nil_append, List.append_assoc]
  unfold wavDecode
  simp [expectBytes, readLE4]
  omega

/-- The int16 cast lands in the signed 16-bit range. -/
theorem wrap16_range (n : Int) : -32768 ≤ wrap16 n ∧ wrap16 n ≤ 32767 := by
  unfold wrap16 toSigned16
  split <;> omega

/-- The int16 cast is the identity on in-range samples. -/
theorem wrap16_eq_of_range (n : Int) (h1 : -32768 ≤ n) (h2 : n ≤ 32767) :
    wrap16 n = n := by
  unfold wrap16 toSigned16
  split <;> omega

theorem wrap16_idem (n : Int) : wrap16 (wrap16 n) = wrap16 n :=
  wrap16_eq_of_range _ (wrap16_range n).1 (wrap16_range n).2

/-! ## Helper lemmas: handler and loop shapes -/

/-- On a validation error `handle_asr` returns the raised exception, did
not call the service, and printed nothing. -/
theorem handle_asr_of_validate_error (svc : ServiceOutcome) (req : Dict) (e : PyErr)
    (h : asrValidate req = .error e) :
    handle_asr svc req = ⟨.error e, false, none, []⟩ := by
  unfold handle_asr
  rw [h]

/-- Conversely, a raised exception out of `handle_asr` comes from the
validation/conversion prefix: the service was not reached and nothing was
printed. -/
theorem handle_asr_error_shape (svc : ServiceOutcome) (req : Dict) (e : PyErr)
    (h : (handle_asr svc req).result = .error e) :
    handle_asr svc req = ⟨.error e, false, none, []⟩ := by
  unfold handle_asr at h ⊢
  cases hv : asrValidate req with
  | error e' => rw [hv] at h; cases h; rfl
  | ok p =>
    rw [hv] at h
    obtain ⟨sr, ns⟩ := p
    cases svc <;> simp at h

/-- Every JSON-object line gets a `.reply` outcome. -/
theorem processLine_obj_reply (svc : ServiceOutcome) (req : Dict) :
    ∃ r ds, processLine svc (.json (.jobj req)) = .reply r ds := by
  unfold processLine
  by_cases hc : (dictGetD req "type" JValue.jnull).isStrEq "asr" = true
  · simp only [hc, if_true]
    cases hr : (handle_asr svc req).result <;> exact ⟨_, _, rfl⟩
  · simp only [Bool.not_eq_true] at hc
    simp [hc]

/-- An exception out of `handle_asr` is caught at the top of the loop,
logged, and converted into an `asr_handler_error` response. -/
theorem processLine_handler_error (svc : ServiceOutcome) (req : Dict) (e : PyErr)
    (ht : (dictGetD req "type" JValue.jnull).isStrEq "asr" = true)
    (he : (handle_asr svc req).result = .error e) :
    processLine svc (.json (.jobj req)) =
      .reply ⟨"asr_result", "", none,
              some ("asr_handler_error: " ++ e.className ++ ": " ++ e.message)⟩
             ["ASR handler error: " ++ e.className ++ ": " ++ e.message] := by
  have hs := handle_asr_error_shape svc req e he
  unfold processLine
  simp only [ht, if_true, he, hs, List.nil_append]

/-- A `.fatal` outcome arises only from a JSON line that decoded to a
non-object value. -/
theorem processLine_fatal_shape (svc : ServiceOutcome) (l : InLine) (e : PyErr)
    (h : processLine svc l = .fatal e) : ∃ v, l = .json v ∧ v.isObj = false := by
  cases l with
  | blank => simp [processLine] at h
  | badJson m => simp [processLine] at h
  | json v =>
    refine ⟨v, rfl, ?_⟩
    cases v with
    | jobj req =>
      exfalso
      obtain ⟨r, ds, hr⟩ := processLine_obj_reply svc req
      rw [hr] at h
      cases h
    | jnull => rfl
    | jbool b => rfl
    | jint n => rfl
    | jstr s => rfl
    | jarr xs => rfl

/-- A replying iteration prepends its one output line and its diagnostics
and the loop goes on with the rest of the input. -/
theorem runLoop_cons_reply (svc : ServiceOutcome) (l : InLine) (r : Response)
    (ds : List String) (rest : List InLine)
    (h : processLine svc l = .reply r ds) :
    runLoop svc (l :: rest) =
      ⟨(serializeResponse r ++ "\n") :: (runLoop svc rest).outs,
       ds ++ (runLoop svc rest).diags,
       (runLoop svc rest).fatalErr⟩ := by
  rw [runLoop, h]
  simp [lineOutputs, lineDiags]

/-- A dropped (malformed JSON) line adds one diagnostic, no output. -/
theorem runLoop_cons_dropped (svc : ServiceOutcome) (msg : String) (rest : List InLine) :
    runLoop svc (InLine.badJson msg :: rest) =
      ⟨(runLoop svc rest).outs,
       ("Invalid JSON: " ++ msg) :: (runLoop svc rest).diags,
       (runLoop svc rest).fatalErr⟩ := by
  rw [runLoop]
  simp [processLine, lineOutputs, lineDiags]

/-- The loop only ends with an escaped exception if some input line was
valid JSON but not an object. -/
theorem runLoop_fatal_source (svc : ServiceOutcome) (input : List InLine) (e : PyErr)
    (h : (runLoop svc input).fatalErr = some e) :
    ∃ v : JValue, InLine.json v ∈ input ∧ v.isObj = false := by
  induction input with
  | nil => simp [runLoop] at h
  | cons l rest ih =>
    rw [runLoop] at h
    cases hp : processLine svc l with
    | fatal e' =>
      obtain ⟨v, hv, hvo⟩ := processLine_fatal_shape svc l e' hp
      exact ⟨v, by simp [hv], hvo⟩
    | skip =>
      rw [hp] at h
      obtain ⟨v, hv, hvo⟩ := ih h
      exact ⟨v, List.mem_cons_of_mem _ hv, hvo⟩
    | dropped d =>
      rw [hp] at h
      obtain ⟨v, hv, hvo⟩ := ih h
      exact ⟨v, List.mem_cons_of_mem _ hv, hvo⟩
    | reply r ds =>
      rw [hp] at h
      obtain ⟨v, hv, hvo⟩ := ih h
      exact ⟨v, List.mem_cons_of_mem _ hv, hvo⟩

/-! ## Helper lemmas: responses are single lines -/

theorem digitChar_ne_newline (n : Nat) (hn : n < 16) : Nat.digitChar n ≠ '\n' := by
  interval_cases n <;> decide

/-- No escape produces a newline character. -/
theorem escChar_no_newline (c : Char) : '\n' ∉ (escChar c).data := by
  unfold escChar
  repeat' split
  · decide
  · decide
  · decide
  · decide
  · decide
  · decide
  · decide
  · intro hmem
    rw [String.data_append, String.data_append] at hmem
    simp only [List.mem_append] at hmem
    rcases hmem with (h | h) | h
    · exact absurd h (by decide)
    · simp [String.singleton] at h
      exact digitChar_ne_newline _ (by omega) h.symm
    · simp [String.singleton] at h
      exact digitChar_ne_newline _ (by omega) h.symm
  · intro hmem
    simp [String.singleton] at hmem
    subst hmem
    exact absurd rfl (by assumption)

theorem escList_no_newline (cs : List Char) : '\n' ∉ (escList cs).data := by
  induction cs with
  | nil => simp [escList]
  | cons c cs ih =>
    intro hmem
    rw [escList, String.data_append] at hmem
    simp only [List.mem_append] at hmem
    rcases hmem with h | h
    · exact escChar_no_newline c h
    · exact ih h

theorem no_newline_append (s t : String) (hs : '\n' ∉ s.data) (ht : '\n' ∉ t.data) :
    '\n' ∉ (s ++ t).data := by
  rw [String.data_append]
  simp only [List.mem_append]
  tauto

theorem jsonStr_no_newline (s : String) : '\n' ∉ (jsonStr s).data :=
  no_newline_append _ _ (no_newline_append _ _ (by decide) (escList_no_newline s.data)) (by decide)

/-- A serialized response never contains a newline: it is one line. -/
theorem serializeResponse_no_newline (r : Response) : '\n' ∉ (serializeResponse r).data := by
  have h1 : '\n' ∉ (jsonOptStr r.confidence).data := by
    cases r.confidence with
    | none => decide
    | some s => exact jsonStr_no_newline s
  have h2 : '\n' ∉ (jsonOptStr r.error).data := by
    cases r.error with
    | none => decide
    | some s => exact jsonStr_no_newline s
  unfold serializeResponse
  repeat' apply no_newline_append
  all_goals first | decide | exact escList_no_newline _ | exact h1 | exact h2

/-- Full encoder/reader round trip at rate 16000: the decoded samples are
the int16-cast (`wrap16`) of the input samples. -/
theorem wav_roundtrip (S : List Int) (h : 2 * S.length + 36 < 4294967296) :
    wavDecode (pcm16_to_wav_bytes S 16000) = some (16000, S.map wrap16) := by
  have hl : (framesOf (S.map wrap16)).length = 2 * S.length := by
    rw [framesOf_length, List.length_map]
  unfold pcm16_to_wav_bytes
  rw [wavDecode_header 16000 _ _ (by norm_num) (by omega) rfl (by omega),
    decodeSamples_framesOf, List.map_map]
  refine congrArg _ (congrArg _ (List.map_congr_left fun a _ => ?_))
  exact wrap16_idem a

/-- If any of the three validation checks fails — `audio_format` is not
the string "pcm_s16le", `int(req.get("sample_rate", 0))` does not yield
16000 (it raises or yields something else), or `samples` is not a list —
then the validation prefix raises. -/
theorem asrValidate_error_of_bad (req : Dict)
    (hbad : (dictGetD req "audio_format" JValue.jnull).isStrEq "pcm_s16le" = false ∨
            pyInt (dictGetD req "sample_rate" (JValue.jint 0)) ≠ .ok 16000 ∨
            (dictGetD req "samples" JValue.jnull).isArr = false) :
    ∃ e, asrValidate req = .error e := by
  unfold asrValidate
  split
  · exact ⟨_, rfl⟩
  · next h1 =>
    split
    · next e heq => exact ⟨e, rfl⟩
    · next sr heq =>
      split
      · exact ⟨_, rfl⟩
      · next h2 =>
        have hsr : sr = 16000 := by omega
        subst hsr
        have h3 : (dictGetD req "samples" JValue.jnull).isArr = false := by
          rcases hbad with h | h | h
          · simp at h1
            rw [h1] at h
            cases h
          · exact absurd heq h
          · exact h
        split
        · next xs hs =>
          exfalso
          rw [hs] at h3
          cases h3
        · exact ⟨_, rfl⟩

/-! ## The claims -/

/-- C1, counterexample: an exception raised during dispatch field access
(`req.get("type")` on a JSON array) is NOT caught at the top of the loop:
the worker emits no response, logs a fatal error, and exits 1 — the loop
does terminate on this per-request error. -/
theorem C1_counterexample :
    worker (ServiceOutcome.ok (some "hello")) [InLine.json (JValue.jarr [])] EndKind.eof =
      ⟨[], ["Worker fatal error: " ++ ("'list' object has no attribute 'get'")], 1⟩ := by
  decide

/-- C1 (amended): for a JSON-object request dispatched to the asr handler,
any exception raised inside the `handle_asr(req)` call is caught at the
top of the loop, logged to stderr, and converted into an `asr_result`
response with the `asr_handler_error` tag; the loop then continues with
the rest of the input. (Exceptions in the dispatcher's own field access
are outside this guard — see the counterexample and C9.) -/
theorem C1_handler_errors_caught (svc : ServiceOutcome) (req : Dict) (e : PyErr)
    (rest : List InLine)
    (ht : (dictGetD req "type" JValue.jnull).isStrEq "asr" = true)
    (he : (handle_asr svc req).result = .error e) :
    processLine svc (.json (.jobj req)) =
      .reply ⟨"asr_result", "", none,
              some ("asr_handler_error: " ++ e.className ++ ": " ++ e.message)⟩
             ["ASR handler error: " ++ e.className ++ ": " ++ e.message] ∧
    runLoop svc (InLine.json (JValue.jobj req) :: rest) =
      ⟨(serializeResponse ⟨"asr_result", "", none,
          some ("asr_handler_error: " ++ e.className ++ ": " ++ e.message)⟩ ++ "\n")
         :: (runLoop svc rest).outs,
       ("ASR handler error: " ++ e.className ++ ": " ++ e.message)
         :: (runLoop svc rest).diags,
       (runLoop svc rest).fatalErr⟩ := by
  have hp := processLine_handler_error svc req e ht he
  refine ⟨hp, ?_⟩
  rw [runLoop_cons_reply svc _ _ _ rest hp]
  rfl

/-- C1, witness: an asr request with a missing `audio_format` raises
inside `handle_asr` and the loop answers with `asr_handler_error`. -/
theorem C1_witness :
    ((dictGetD [("type", JValue.jstr "asr")] "type" JValue.jnull).isStrEq "asr" = true) ∧
    ((handle_asr (ServiceOutcome.ok none) [("type", JValue.jstr "asr")]).result =
      .error (.valueError "Unsupported audio_format; expected pcm_s16le")) ∧
    (processLine (ServiceOutcome.ok none) (.json (.jobj [("type", JValue.jstr "asr")])) =
      .reply ⟨"asr_result", "", none,
              some ("asr_handler_error: " ++ (PyErr.valueError "Unsupported audio_format; expected pcm_s16le").className ++ ": " ++ (PyErr.valueError "Unsupported audio_format; expected pcm_s16le").message)⟩
             ["ASR handler error: " ++ (PyErr.valueError "Unsupported audio_format; expected pcm_s16le").className ++ ": " ++ (PyErr.valueError "Unsupported audio_format; expected pcm_s16le").message] ∧
     runLoop (ServiceOutcome.ok none) [InLine.json (JValue.jobj [("type", JValue.jstr "asr")])] =
      ⟨[serializeResponse ⟨"asr_result", "", none,
          some ("asr_handler_error: " ++ (PyErr.valueError "Unsupported audio_format; expected pcm_s16le").className ++ ": " ++ (PyErr.valueError "Unsupported audio_format; expected pcm_s16le").message)⟩ ++ "\n"],
       ["ASR handler error: " ++ (PyErr.valueError "Unsupported audio_format; expected pcm_s16le").className ++ ": " ++ (PyErr.valueError "Unsupported audio_format; expected pcm_s16le").message],
       none⟩) := by
  refine ⟨by decide, rfl, ?_⟩
  have h := C1_handler_errors_caught (ServiceOutcome.ok none) [("type", JValue.jstr "asr")]
    (.valueError "Unsupported audio_format; expected pcm_s16le") [] (by decide) rfl
  exact ⟨h.1, h.2⟩

/-- C2, counterexample: the out-of-range sample 32768 round-trips to
-32768 (the two's-complement int16 cast), not to the clamped value 32767
the claim asserts. -/
theorem C2_counterexample :
    wavDecode (pcm16_to_wav_bytes [32768] 16000) = some (16000, [-32768]) ∧
    List.map specClamp16 [(32768 : Int)] = [32767] ∧
    wavDecode (pcm16_to_wav_bytes [32768] 16000) ≠
      some (16000, List.map specClamp16 [(32768 : Int)]) := by
  refine ⟨?_, ?_, ?_⟩ <;> decide

/-- C2 (amended): for any sample sequence (whose data fits the 32-bit WAV
size fields) at rate 16000, decoding the encoder's bytes with a standard
WAV reader yields the sequence with each element CAST two's-complement
into [-32768, 32767] (not clamped, not rejected); a sequence already in
the signed 16-bit range round-trips unchanged. -/
theorem C2_wav_roundtrip (S : List Int) (h : 2 * S.length + 36 < 4294967296) :
    wavDecode (pcm16_to_wav_bytes S 16000) = some (16000, S.map wrap16) ∧
    ((∀ x ∈ S, -32768 ≤ x ∧ x ≤ 32767) → S.map wrap16 = S) := by
  refine ⟨wav_roundtrip S h, fun hin => ?_⟩
  calc S.map wrap16 = S.map id :=
        List.map_congr_left fun a ha =>
          (wrap16_eq_of_range a (hin a ha).1 (hin a ha).2).trans rfl
    _ = S := List.map_id S

/-- C2, witness at the in-range sequence [32767, -32768, 5]. -/
theorem C2_witness :
    2 * ([32767, -32768, 5] : List Int).length + 36 < 4294967296 ∧
    (wavDecode (pcm16_to_wav_bytes [32767, -32768, 5] 16000) =
        some (16000, ([32767, -32768, 5] : List Int).map wrap16) ∧
      ((∀ x ∈ ([32767, -32768, 5] : List Int), -32768 ≤ x ∧ x ≤ 32767) →
        ([32767, -32768, 5] : List Int).map wrap16 = [32767, -32768, 5])) :=
  ⟨by decide, C2_wav_roundtrip [32767, -32768, 5] (by decide)⟩

/-- C3 (confirmed): a line decoding to a JSON object gets exactly one
response line; a line that fails JSON parsing gets no response and exactly
one diagnostic, and the loop continues. -/
theorem C3_line_discipline (svc : ServiceOutcome) :
    (∀ req : Dict, (lineOutputs (processLine svc (.json (.jobj req)))).length = 1) ∧
    (∀ msg : String, ∀ rest : List InLine,
      runLoop svc (InLine.badJson msg :: rest) =
        ⟨(runLoop svc rest).outs,
         ("Invalid JSON: " ++ msg) :: (runLoop svc rest).diags,
         (runLoop svc rest).fatalErr⟩) := by
  constructor
  · intro req
    obtain ⟨r, ds, hr⟩ := processLine_obj_reply svc req
    rw [hr]
    rfl
  · exact fun msg rest => runLoop_cons_dropped svc msg rest

/-- C4, counterexample: `sample_rate` given as the STRING "16000" is not
the integer 16000, yet validation passes (through `int()` coercion), the
transcription service IS called, and the response error is null. -/
theorem C4_counterexample :
    JValue.jstr "16000" ≠ JValue.jint 16000 ∧
    dictGet strRateReq "sample_rate" = some (JValue.jstr "16000") ∧
    (handle_asr (ServiceOutcome.ok (some "hi")) strRateReq).serviceCalled = true ∧
    (handle_asr (ServiceOutcome.ok (some "hi")) strRateReq).result =
      .ok ⟨"asr_result", "hi", none, none⟩ :=
  ⟨fun hcon => JValue.noConfusion hcon, rfl, rfl, rfl⟩

/-- C4 (amended): for an asr request whose `audio_format` is not
"pcm_s16le", or whose `int()`-coerced `sample_rate` does not yield 16000,
or whose `samples` is not a list, `handle_asr` raises without calling the
service, and the loop emits a response with empty text and a non-null
error wrapping the raised validation exception (`asr_handler_error`
followed by the exception's class and the specific unmet constraint). -/
theorem C4_validation_failure (svc : ServiceOutcome) (req : Dict)
    (ht : (dictGetD req "type" JValue.jnull).isStrEq "asr" = true)
    (hbad : (dictGetD req "audio_format" JValue.jnull).isStrEq "pcm_s16le" = false ∨
            pyInt (dictGetD req "sample_rate" (JValue.jint 0)) ≠ .ok 16000 ∨
            (dictGetD req "samples" JValue.jnull).isArr = false) :
    ∃ e : PyErr,
      handle_asr svc req = ⟨.error e, false, none, []⟩ ∧
      processLine svc (.json (.jobj req)) =
        .reply ⟨"asr_result", "", none,
                some ("asr_handler_error: " ++ e.className ++ ": " ++ e.message)⟩
               ["ASR handler error: " ++ e.className ++ ": " ++ e.message] := by
  obtain ⟨e, hv⟩ := asrValidate_error_of_bad req hbad
  have hh := handle_asr_of_validate_error svc req e hv
  exact ⟨e, hh, processLine_handler_error svc req e ht (by rw [hh])⟩

/-- C4, witness: an asr request with `audio_format` "mp3" is rejected
without a service call. -/
theorem C4_witness :
    ((dictGetD [("type", JValue.jstr "asr"), ("audio_format", JValue.jstr "mp3")] "type" JValue.jnull).isStrEq "asr" = true) ∧
    ((dictGetD [("type", JValue.jstr "asr"), ("audio_format", JValue.jstr "mp3")] "audio_format" JValue.jnull).isStrEq "pcm_s16le" = false ∨
      pyInt (dictGetD [("type", JValue.jstr "asr"), ("audio_format", JValue.jstr "mp3")] "sample_rate" (JValue.jint 0)) ≠ .ok 16000 ∨
      (dictGetD [("type", JValue.jstr "asr"), ("audio_format", JValue.jstr "mp3")] "samples" JValue.jnull).isArr = false) ∧
    (∃ e : PyErr,
      handle_asr (ServiceOutcome.ok none) [("type", JValue.jstr "asr"), ("audio_format", JValue.jstr "mp3")] = ⟨.error e, false, none, []⟩ ∧
      processLine (ServiceOutcome.ok none) (.json (.jobj [("type", JValue.jstr "asr"), ("audio_format", JValue.jstr "mp3")])) =
        .reply ⟨"asr_result", "", none,
                some ("asr_handler_error: " ++ e.className ++ ": " ++ e.message)⟩
               ["ASR handler error: " ++ e.className ++ ": " ++ e.message]) :=
  ⟨by decide, Or.inl (by decide),
   C4_validation_failure (ServiceOutcome.ok none) _ (by decide) (Or.inl (by decide))⟩

/-- C5 (confirmed): for an asr request that passes validation, a raised
service exception is caught at the call boundary: the response has empty
text and a `groq_asr_failed` error carrying the exception's class name and
message, the error is logged to stderr, and the loop continues with the
rest of the input. -/
theorem C5_service_failure_caught (cls msg : String) (req : Dict) (sr : Int)
    (ns : List Int) (rest : List InLine)
    (hv : asrValidate req = .ok (sr, ns))
    (ht : (dictGetD req "type" JValue.jnull).isStrEq "asr" = true) :
    handle_asr (.raise cls msg) req =
      ⟨.ok ⟨"asr_result", "", none, some ("groq_asr_failed: " ++ cls ++ ": " ++ msg)⟩,
       true, some (pcm16_to_wav_bytes ns sr.toNat),
       ["ASR error: " ++ cls ++ ": " ++ msg]⟩ ∧
    runLoop (.raise cls msg) (InLine.json (JValue.jobj req) :: rest) =
      ⟨(serializeResponse ⟨"asr_result", "", none,
          some ("groq_asr_failed: " ++ cls ++ ": " ++ msg)⟩ ++ "\n")
         :: (runLoop (.raise cls msg) rest).outs,
       ("ASR error: " ++ cls ++ ": " ++ msg) :: (runLoop (.raise cls msg) rest).diags,
       (runLoop (.raise cls msg) rest).fatalErr⟩ := by
  have hh : handle_asr (.raise cls msg) req =
      ⟨.ok ⟨"asr_result", "", none, some ("groq_asr_failed: " ++ cls ++ ": " ++ msg)⟩,
       true, some (pcm16_to_wav_bytes ns sr.toNat),
       ["ASR error: " ++ cls ++ ": " ++ msg]⟩ := by
    unfold handle_asr
    rw [hv]
  refine ⟨hh, ?_⟩
  have hp : processLine (.raise cls msg) (.json (.jobj req)) =
      .reply ⟨"asr_result", "", none, some ("groq_asr_failed: " ++ cls ++ ": " ++ msg)⟩
             ["ASR error: " ++ cls ++ ": " ++ msg] := by
    unfold processLine
    simp only [ht, if_true, hh]
  rw [runLoop_cons_reply _ _ _ _ rest hp]
  rfl

/-- C5, witness: a failing service stub on the spec's example request. -/
theorem C5_witness :
    (asrValidate exampleReq = .ok (16000, [0, 0, 0])) ∧
    ((dictGetD exampleReq "type" JValue.jnull).isStrEq "asr" = true) ∧
    (handle_asr (.raise "APIConnectionError" "no key") exampleReq =
      ⟨.ok ⟨"asr_result", "", none,
            some ("groq_asr_failed: " ++ "APIConnectionError" ++ ": " ++ "no key")⟩,
       true, some (pcm16_to_wav_bytes [0, 0, 0] (16000 : Int).toNat),
       ["ASR error: " ++ "APIConnectionError" ++ ": " ++ "no key"]⟩ ∧
     runLoop (.raise "APIConnectionError" "no key") [InLine.json (JValue.jobj exampleReq)] =
      ⟨[serializeResponse ⟨"asr_result", "", none,
          some ("groq_asr_failed: " ++ "APIConnectionError" ++ ": " ++ "no key")⟩ ++ "\n"],
       ["ASR error: " ++ "APIConnectionError" ++ ": " ++ "no key"],
       none⟩) :=
  ⟨rfl, by decide,
   C5_service_failure_caught "APIConnectionError" "no key" exampleReq 16000 [0, 0, 0] [] rfl (by decide)⟩

/-- C6 (confirmed): a JSON-object request whose `type` is anything other
than the string "asr" (a different string, a non-string, or absent) gets
the response `asr_result` / empty text / null confidence / error
"unknown_request_type: " followed by the Python rendering of that value,
and a diagnostic is logged. -/
theorem C6_unknown_request_type (svc : ServiceOutcome) (req : Dict)
    (h : (dictGetD req "type" JValue.jnull).isStrEq "asr" = false) :
    processLine svc (.json (.jobj req)) =
      .reply ⟨"asr_result", "", none,
              some ("unknown_request_type: " ++ pyStr (dictGetD req "type" JValue.jnull))⟩
             ["Unknown request type: " ++ pyStr (dictGetD req "type" JValue.jnull)] := by
  unfold processLine
  simp [h]

/-- C6, witness at type "ping". -/
theorem C6_witness :
    ((dictGetD [("type", JValue.jstr "ping")] "type" JValue.jnull).isStrEq "asr" = false) ∧
    processLine (ServiceOutcome.ok none) (.json (.jobj [("type", JValue.jstr "ping")])) =
      .reply ⟨"asr_result", "", none,
              some ("unknown_request_type: " ++ pyStr (dictGetD [("type", JValue.jstr "ping")] "type" JValue.jnull))⟩
             ["Unknown request type: " ++ pyStr (dictGetD [("type", JValue.jstr "ping")] "type" JValue.jnull)] :=
  ⟨by decide, C6_unknown_request_type (ServiceOutcome.ok none) [("type", JValue.jstr "ping")] (by decide)⟩

/-- C7, counterexample: the spec's example request does NOT produce the
claimed compact line: `json.dumps` is called without `separators`, so the
emitted line has a space after each colon and comma. -/
theorem C7_counterexample :
    runLoop (ServiceOutcome.ok (some "hello")) [InLine.json (JValue.jobj exampleReq)] ≠
      ⟨["\x7b\"type\":\"asr_result\",\"text\":\"hello\",\"confidence\":null,\"error\":null\x7d" ++ "\n"],
       [], none⟩ := by
  decide

/-- C7 (amended): each response is serialized as a single JSON line with
Python's default separators (", " and ": "), non-ASCII preserved, written
with exactly one trailing newline; the spec's example request against a
stub returning "hello" yields exactly that spaced line; and no serialized
response ever contains a newline character. -/
theorem C7_output_format :
    runLoop (ServiceOutcome.ok (some "hello")) [InLine.json (JValue.jobj exampleReq)] =
      ⟨["\x7b\"type\": \"asr_result\", \"text\": \"hello\", \"confidence\": null, \"error\": null\x7d" ++ "\n"],
       [], none⟩ ∧
    (∀ r : Response, '\n' ∉ (serializeResponse r).data) :=
  ⟨by decide, fun r => serializeResponse_no_newline r⟩

/-- C8 (confirmed): the process exits 0 exactly when the loop consumed the
whole input (end-of-stream, or the interrupt end) without an escaped
exception, exits 1 exactly when an exception escaped the loop, there is no
other exit code, and an escaped exception only arises from a line that was
valid JSON but not an object (the dispatch path outside the per-request
guard). -/
theorem C8_exit_status (svc : ServiceOutcome) (input : List InLine) (endk : EndKind) :
    ((worker svc input endk).exitCode = 0 ↔ (runLoop svc input).fatalErr = none) ∧
    ((worker svc input endk).exitCode = 1 ↔ (runLoop svc input).fatalErr ≠ none) ∧
    ((worker svc input endk).exitCode = 0 ∨ (worker svc input endk).exitCode = 1) ∧
    (∀ e : PyErr, (runLoop svc input).fatalErr = some e →
      ∃ v : JValue, InLine.json v ∈ input ∧ v.isObj = false) := by
  refine ⟨?_, ?_, ?_, fun e he => runLoop_fatal_source svc input e he⟩ <;>
  · unfold worker
    cases hr : runLoop svc input with
    | mk outs ds fe => cases fe <;> simp

/-- C9 (confirmed): a line of valid JSON that is not an object makes the
dispatcher's `req.get("type")` raise outside any per-request handler: no
response is written for that line, the `__main__` guard logs a fatal
error, and the process exits with status 1. -/
theorem C9_nonobject_json_fatal (svc : ServiceOutcome) (v : JValue) (rest : List InLine)
    (h : v.isObj = false) :
    processLine svc (.json v) =
      .fatal (.attributeError ("'" ++ v.pyTypeName ++ "' object has no attribute 'get'")) ∧
    worker svc (InLine.json v :: rest) EndKind.eof =
      ⟨[], ["Worker fatal error: " ++ ("'" ++ v.pyTypeName ++ "' object has no attribute 'get'")], 1⟩ := by
  have hp : processLine svc (.json v) =
      .fatal (.attributeError ("'" ++ v.pyTypeName ++ "' object has no attribute 'get'")) := by
    cases v <;> first | rfl | (exact absurd h (by simp [JValue.isObj]))
  refine ⟨hp, ?_⟩
  unfold worker
  rw [runLoop, hp]
  rfl

/-- C9, witness at the JSON array `[]`. -/
theorem C9_witness :
    (JValue.jarr []).isObj = false ∧
    (processLine (ServiceOutcome.ok none) (.json (JValue.jarr [])) =
      .fatal (.attributeError ("'" ++ (JValue.jarr []).pyTypeName ++ "' object has no attribute 'get'")) ∧
     worker (ServiceOutcome.ok none) [InLine.json (JValue.jarr [])] EndKind.eof =
      ⟨[], ["Worker fatal error: " ++ ("'" ++ (JValue.jarr []).pyTypeName ++ "' object has no attribute 'get'")], 1⟩) :=
  ⟨by decide, C9_nonobject_json_fatal (ServiceOutcome.ok none) (JValue.jarr []) [] (by decide)⟩

/-- C10 (confirmed): an asr request whose `sample_rate` is any value `x`
with `int(x) = 16000` (for example the string "16000") passes validation
and proceeds to the audio encoding and the service call; and a request
with `sample_rate` absent is coerced from the default 0 and rejected
before any service call. -/
theorem C10_sample_rate_coercion (svc : ServiceOutcome) (req : Dict) (x : JValue)
    (xs : List JValue) (ns : List Int)
    (hf : (dictGetD req "audio_format" JValue.jnull).isStrEq "pcm_s16le" = true)
    (hx : dictGet req "sample_rate" = some x)
    (hcoerce : pyInt x = .ok 16000)
    (hs : dictGetD req "samples" JValue.jnull = .jarr xs)
    (hc : npToIntList xs = .ok ns) :
    asrValidate req = .ok (16000, ns) ∧
    (handle_asr svc req).serviceCalled = true ∧
    (handle_asr svc req).wavSent = some (pcm16_to_wav_bytes ns 16000) ∧
    (∀ req2 : Dict,
      (dictGetD req2 "audio_format" JValue.jnull).isStrEq "pcm_s16le" = true →
      dictGet req2 "sample_rate" = none →
      handle_asr svc req2 =
        ⟨.error (.valueError "Unsupported sample_rate; expected 16000"), false, none, []⟩) := by
  have hgd : dictGetD req "sample_rate" (JValue.jint 0) = x := by
    unfold dictGetD
    unfold dictGet at hx
    rw [hx]
    rfl
  have hv : asrValidate req = .ok (16000, ns) := by
    unfold asrValidate
    rw [if_neg (by simp [hf]), hgd, hcoerce]
    show (match dictGetD req "samples" JValue.jnull with
          | JValue.jarr xs => Except.map (fun ns => ((16000 : Int), ns)) (npToIntList xs)
          | _ => Except.error (PyErr.valueError "samples must be a list of int16")) =
         Except.ok (16000, ns)
    rw [hs]
    show Except.map (fun ns => ((16000 : Int), ns)) (npToIntList xs) = Except.ok (16000, ns)
    rw [hc]
    rfl
  have hh : handle_asr svc req =
      (match svc with
       | .raise cls msg =>
         ⟨.ok ⟨"asr_result", "", none, some ("groq_asr_failed: " ++ cls ++ ": " ++ msg)⟩,
          true, some (pcm16_to_wav_bytes ns (16000 : Int).toNat),
          ["ASR error: " ++ cls ++ ": " ++ msg]⟩
       | .ok t => ⟨.ok ⟨"asr_result", t.getD "", none, none⟩, true,
          some (pcm16_to_wav_bytes ns (16000 : Int).toNat), []⟩) := by
    unfold handle_asr
    rw [hv]
  refine ⟨hv, ?_, ?_, ?_⟩
  · rw [hh]; cases svc <;> rfl
  · rw [hh]; cases svc <;> rfl
  · intro req2 hf2 hx2
    apply handle_asr_of_validate_error
    unfold asrValidate
    rw [if_neg (by simp [hf2])]
    have hgd2 : dictGetD req2 "sample_rate" (JValue.jint 0) = JValue.jint 0 := by
      unfold dictGetD
      unfold dictGet at hx2
      rw [hx2]
      rfl
    rw [hgd2]
    rfl

/-- C10, witness: the string "16000" sample rate reaches the service; a
request without `sample_rate` is rejected. -/
theorem C10_witness :
    ((dictGetD strRateReq "audio_format" JValue.jnull).isStrEq "pcm_s16le" = true) ∧
    (dictGet strRateReq "sample_rate" = some (JValue.jstr "16000")) ∧
    (pyInt (JValue.jstr "16000") = .ok 16000) ∧
    (dictGetD strRateReq "samples" JValue.jnull = .jarr [JValue.jint 0]) ∧
    (npToIntList [JValue.jint 0] = .ok [0]) ∧
    (asrValidate strRateReq = .ok (16000, [0]) ∧
     (handle_asr (ServiceOutcome.ok (some "hi")) strRateReq).serviceCalled = true ∧
     (handle_asr (ServiceOutcome.ok (some "hi")) strRateReq).wavSent =
       some (pcm16_to_wav_bytes [0] 16000) ∧
     (∀ req2 : Dict,
       (dictGetD req2 "audio_format" JValue.jnull).isStrEq "pcm_s16le" = true →
       dictGet req2 "sample_rate" = none →
       handle_asr (ServiceOutcome.ok (some "hi")) req2 =
         ⟨.error (.valueError "Unsupported sample_rate; expected 16000"), false, none, []⟩)) :=
  ⟨by decide, rfl, rfl, rfl, rfl,
   C10_sample_rate_coercion (ServiceOutcome.ok (some "hi")) strRateReq (JValue.jstr "16000")
     [JValue.jint 0] [0] (by decide) rfl rfl rfl rfl⟩

end BtwMl
